import Mathlib

/-!
# Verification of the china-merger-filing-database extraction/reconciliation pipeline

Shallow embedding of the repository's core components, translated from the
Python sources:

* `src/utils.py`   — `DateParser`, `PageTypeIdentifier`
* `src/parsers.py` — `BaseParser.parse`, `BaseParser.extract_date_range`
* `src/scraper.py` — `CaseScraper.save_to_db`, `CaseScraper.download_attachment`,
  `CaseScraper.get_page_type`/`get_region_name`, `CaseScraper._turn_to_next_page`,
  `CaseScraper.parse_list_page_playwright`
* `src/beijing_scraper.py`, `src/shanghai_scraper.py`, `src/chongqing_scraper.py`,
  `src/shaanxi_scraper.py` — per-source `process_case` update paths and
  `download_attachment`
* `src/downloader.py` — `AttachmentDownloader.download_attachment`
* `src/deduplicate_db.py` — `deduplicate_by_source_url`

Machine integers do not occur; Python strings are modelled as `String` /
`List Char`, `None` as `Option.none`, SQL `NULL` as `Option.none`.
All definitions are executable and structural, so concrete runs evaluate
by `decide` / `rfl`.
-/

/-! ## List/char helpers (Python string primitives) -/

/-- Does the char list `s` start with `pat`? (used for substring search). -/
def startsL : List Char → List Char → Bool
  | [], _ => true
  | _ :: _, [] => false
  | a :: as, b :: bs => a = b && startsL as bs

/-- Does `s` contain `pat` as a contiguous run?  Models Python's `pat in s`. -/
def hasSubL (pat : List Char) : List Char → Bool
  | [] => startsL pat []
  | c :: rest => startsL pat (c :: rest) || hasSubL pat rest

/-- Python's `pat in s` on strings. -/
def strHas (s pat : String) : Bool := hasSubL pat.toList s.toList

/-- Python whitespace (`str.strip` / `str.split()` default class, ASCII part). -/
def pyWs (c : Char) : Bool :=
  c = ' ' || c = '\t' || c = '\n' || c = '\r' || c = '\x0b' || c = '\x0c'

/-- Python `str.strip()` on a char list. -/
def trimL (l : List Char) : List Char :=
  ((l.dropWhile pyWs).reverse.dropWhile pyWs).reverse

/-- Python `str.replace(old, new)` for a one-char `old`. -/
def replC (old : Char) (new : List Char) : List Char → List Char
  | [] => []
  | c :: rest => (if c = old then new else [c]) ++ replC old new rest

/-- Python `str.split(sep)` for a one-char separator (keeps empty pieces). -/
def splitC (sep : Char) : List Char → List (List Char)
  | [] => [[]]
  | c :: rest =>
    let r := splitC sep rest
    if c = sep then [] :: r
    else
      match r with
      | h :: t => (c :: h) :: t
      | [] => [[c]]

/-- Python `str.split()` (no argument): whitespace runs, empties dropped. -/
def splitWsL : List Char → List (List Char)
  | [] => []
  | c :: rest =>
    if pyWs c then splitWsL rest
    else
      match splitWsL rest with
      | [] => [[c]]
      | h :: t =>
        match rest with
        | [] => [[c]]
        | d :: _ => if pyWs d then [c] :: h :: t else (c :: h) :: t

/-- Model of `' '.join(pieces)`. -/
def joinSp : List (List Char) → List Char
  | [] => []
  | [p] => p
  | p :: rest => p ++ ' ' :: joinSp rest

/-- ASCII lowercase of one char, as Python's `str.lower` acts on ASCII. -/
def lowAscii (c : Char) : Char :=
  if 'A' ≤ c && c ≤ 'Z' then Char.ofNat (c.toNat + 32) else c

/-- Python `str.lower()` (ASCII part; URLs in this repo are ASCII). -/
def lowerL (l : List Char) : List Char := l.map lowAscii

/-- Python `str.endswith(suf)`. -/
def endsL (suf l : List Char) : Bool := startsL suf.reverse l.reverse

/-! ## `utils.PageTypeIdentifier` (src/utils.py lines 101-132) -/

namespace PageTypeIdentifier

/-- Model of `PageTypeIdentifier.REGION_MAP` from src/utils.py. -/
def REGION_MAP : List (String × String) :=
  [("samr", "总局"), ("beijing", "北京"), ("chongqing", "重庆"),
   ("shanghai", "上海"), ("guangdong", "广东"), ("shaanxi", "陕西")]

/-- Model of `PageTypeIdentifier.identify_page_type`: ordered domain-substring checks. -/
def identify_page_type (url : String) : Option String :=
  if strHas url "samr.gov.cn" then some "samr"
  else if strHas url "scjgj.beijing.gov.cn" then some "beijing"
  else if strHas url "scjgj.cq.gov.cn" then some "chongqing"
  else if strHas url "scjgj.sh.gov.cn" then some "shanghai"
  else if strHas url "amr.gd.gov.cn" then some "guangdong"
  else if strHas url "snamr.shaanxi.gov.cn" then some "shaanxi"
  else none

/-- Model of `PageTypeIdentifier.get_region`: dict `.get` with default `'未知'`. -/
def get_region (page_type : String) : String :=
  ((REGION_MAP.lookup page_type).getD "未知")

end PageTypeIdentifier

/-! ## `CaseScraper.get_page_type` / `get_region_name` (src/scraper.py lines 642-668) -/

namespace CaseScraper

/-- Model of `domain_map` literal of `CaseScraper.get_page_type`, in dict insertion order. -/
def domain_map : List (String × String) :=
  [("scjgj.beijing.gov.cn", "beijing"), ("scjgj.sh.gov.cn", "shanghai"),
   ("scjgj.cq.gov.cn", "chongqing"), ("amr.gd.gov.cn", "guangdong"),
   ("scjgj.shaanxi.gov.cn", "shaanxi"), ("samr.gov.cn", "samr")]

/-- Model of `CaseScraper.get_page_type`: first dict entry whose domain occurs in the URL. -/
def get_page_type (url : String) : Option String :=
  (domain_map.find? (fun p => strHas url p.1)).map (fun p => p.2)

/-- Model of `region_map` literal of `CaseScraper.get_region_name`. -/
def region_map : List (String × String) :=
  [("beijing", "北京"), ("shanghai", "上海"), ("chongqing", "重庆"),
   ("guangdong", "广东"), ("shaanxi", "陕西"), ("samr", "国家市场监督管理总局")]

/-- Model of `CaseScraper.get_region_name`: dict `.get` with default `'未知'`. -/
def get_region_name (page_type : String) : String :=
  ((region_map.lookup page_type).getD "未知")

end CaseScraper

/-- The ordered domain/identifier list that `identify_page_type` encodes as an
`if` chain (spec §4.1 says resolution is first-match over an ordered list). -/
def pageDomains : List (String × String) :=
  [("samr.gov.cn", "samr"), ("scjgj.beijing.gov.cn", "beijing"),
   ("scjgj.cq.gov.cn", "chongqing"), ("scjgj.sh.gov.cn", "shanghai"),
   ("amr.gd.gov.cn", "guangdong"), ("snamr.shaanxi.gov.cn", "shaanxi")]

/-- Spec-side resolver: first matching substring of an ordered list wins. -/
def listResolve (l : List (String × String)) (url : String) : Option String :=
  (l.find? (fun p => strHas url p.1)).map (fun p => p.2)

/-! ## Case records and reconciliation update paths

`StoredCase` models a row of the `cases` table (src/models.py); dates and
paths are kept as opaque strings, SQL `NULL` / Python `None` as `none`. -/

structure StoredCase where
  case_name : String
  source_url : Option String
  attachment_path : Option String
  region : Option String
  notice_start_date : Option String
  notice_end_date : Option String
deriving DecidableEq, Repr

/-- The dict `db_data` prepared at the top of `CaseScraper.save_to_db`
(src/scraper.py lines 509-516); `region` defaults to `''` when missing. -/
structure DbData where
  case_name : String
  source_url : Option String
  attachment_path : Option String
  region : String
  notice_start_date : Option String
  notice_end_date : Option String
deriving DecidableEq, Repr

/-- A per-source `detail_data` dict (`parse_detail_page` results of the
Beijing/Shanghai/Chongqing/Shaanxi scrapers). -/
structure DetailData where
  start_date : Option String
  end_date : Option String
  attachment_url : Option String
  attachment_name : Option String
deriving DecidableEq, Repr

namespace CaseScraper

/-- The `UPDATE cases SET ... CASE WHEN ...` statement of
`CaseScraper.save_to_db` (src/scraper.py lines 536-555), applied to one row.
Each date is set only when the stored value is NULL and the bound value is
non-NULL; `region` only when stored NULL or `''` and the bound value is
non-empty; no other column is touched. -/
def update_case_row (row : StoredCase) (d : DbData) : StoredCase :=
  { row with
    notice_start_date :=
      if row.notice_start_date = none ∧ d.notice_start_date ≠ none then
        d.notice_start_date
      else row.notice_start_date,
    notice_end_date :=
      if row.notice_end_date = none ∧ d.notice_end_date ≠ none then
        d.notice_end_date
      else row.notice_end_date,
    region :=
      if (row.region = none ∨ row.region = some "") ∧ d.region ≠ "" then
        some d.region
      else row.region }

/-- Model of `CaseScraper.save_to_db` (src/scraper.py lines 505-579): if a row with the
same `case_name` exists, run the field-limited UPDATE on every such row;
otherwise INSERT a new row carrying the extracted values. -/
def save_to_db (db : List StoredCase) (d : DbData) : List StoredCase :=
  if db.any (fun r => r.case_name = d.case_name) then
    db.map (fun r => if r.case_name = d.case_name then update_case_row r d else r)
  else
    db ++ [⟨d.case_name, d.source_url, d.attachment_path, some d.region,
           d.notice_start_date, d.notice_end_date⟩]

end CaseScraper

namespace BeijingScraper

/-- Update path of `BeijingScraper.process_case` for an existing record
(src/beijing_scraper.py lines 265-293): region forced to `'北京'`, dates set
only when the stored value is falsy (`None`) and the new value truthy;
`attachment_path` is never updated for an existing record. -/
def bj_update (c : StoredCase) (d : DetailData) : StoredCase :=
  { c with
    region := if c.region ≠ some "北京" then some "北京" else c.region,
    notice_start_date :=
      if c.notice_start_date = none ∧ d.start_date ≠ none then d.start_date
      else c.notice_start_date,
    notice_end_date :=
      if c.notice_end_date = none ∧ d.end_date ≠ none then d.end_date
      else c.notice_end_date }

end BeijingScraper

namespace ChongqingScraper

/-- Update path of `ChongqingScraper.process_case` for an existing record
(src/chongqing_scraper.py lines 277-310): same shape as the Beijing path with
region `'重庆'`. -/
def cq_update (c : StoredCase) (d : DetailData) : StoredCase :=
  { c with
    region := if c.region ≠ some "重庆" then some "重庆" else c.region,
    notice_start_date :=
      if c.notice_start_date = none ∧ d.start_date ≠ none then d.start_date
      else c.notice_start_date,
    notice_end_date :=
      if c.notice_end_date = none ∧ d.end_date ≠ none then d.end_date
      else c.notice_end_date }

end ChongqingScraper

namespace ShanghaiScraper

/-- Update path of `ShanghaiScraper.process_case` for an existing record
(src/shanghai_scraper.py lines 263-294).  `attachment_path` is the value
computed by the surrounding attachment block (possibly `none`); it is stored
only when the record has none yet. -/
def sh_update (c : StoredCase) (d : DetailData) (attachment_path : Option String) :
    StoredCase :=
  { c with
    notice_start_date :=
      if c.notice_start_date = none ∧ d.start_date ≠ none then d.start_date
      else c.notice_start_date,
    notice_end_date :=
      if c.notice_end_date = none ∧ d.end_date ≠ none then d.end_date
      else c.notice_end_date,
    region := if c.region ≠ some "上海" then some "上海" else c.region,
    attachment_path :=
      if attachment_path ≠ none ∧ c.attachment_path = none then attachment_path
      else c.attachment_path }

end ShanghaiScraper

namespace ShaanxiScraper

/-- Update path of `ShaanxiScraper.process_case` for an existing record
(src/shaanxi_scraper.py lines 332-351).  Unlike the other sources, the date
fields are overwritten with the newly extracted values whenever they differ
(`if existing != new: existing = new`), including overwriting a present date
with `None`; the attachment is only downloaded/stored when missing.
`dl` is the result of the attachment download attempt made when
`c.attachment_path` is absent and `d.attachment_url` is present. -/
def sx_update (c : StoredCase) (final_title case_url : String) (d : DetailData)
    (dl : Option String) : StoredCase :=
  { case_name := if c.case_name ≠ final_title then final_title else c.case_name,
    region := if c.region ≠ some "陕西" then some "陕西" else c.region,
    notice_start_date :=
      if c.notice_start_date ≠ d.start_date then d.start_date
      else c.notice_start_date,
    notice_end_date :=
      if c.notice_end_date ≠ d.end_date then d.end_date
      else c.notice_end_date,
    attachment_path :=
      if c.attachment_path = none ∧ d.attachment_url ≠ none then
        match dl with
        | some p => some p
        | none => c.attachment_path
      else c.attachment_path,
    source_url :=
      if c.source_url ≠ some case_url then some case_url else c.source_url }

end ShaanxiScraper

/-! ## `BaseParser.parse` (src/parsers.py lines 20-49)

The extraction methods `get_title` / `get_date_range` / `get_attachment_url`
are abstract in `BaseParser` (each concrete parser walks the HTML soup); a
document is therefore embedded as the tuple of their outcomes.  Python's
`if not title` treats both `None` and `''` as missing. -/

structure DocExtract where
  title : Option String
  start_date : Option String
  end_date : Option String
  attachment_url : Option String
deriving DecidableEq, Repr

structure ParseResult where
  case_name : String
  notice_start_date : Option String
  notice_end_date : Option String
  attachment_url : Option String
deriving DecidableEq, Repr

namespace BaseParser

/-- Model of `BaseParser.parse`: no usable title raises `ParserException`, caught to
return `None`; missing dates or attachment are mere warnings and the record
is still returned. -/
def parse (d : DocExtract) : Option ParseResult :=
  match d.title with
  | none => none
  | some t =>
    if t = "" then none
    else some ⟨t, d.start_date, d.end_date, d.attachment_url⟩

end BaseParser

/-! ## `deduplicate_by_source_url` (src/deduplicate_db.py lines 14-101) -/

structure DbRow where
  rowid : Nat
  source_url : Option String
deriving DecidableEq, Repr

namespace DeduplicateDb

/-- Model of `SELECT MAX(rowid) FROM cases GROUP BY source_url` for one group key
(SQLite groups all NULLs together, and `MAX` over Nat rowids via fold). -/
def groupMax (db : List DbRow) (k : Option String) : Nat :=
  ((db.filter (fun r => r.source_url = k)).map (fun r => r.rowid)).foldl Nat.max 0

/-- The duplicate-detection query (lines 38-45): a `source_url` that is
neither NULL nor `''` held by at least two rows.  When it finds nothing the
function returns before deleting anything. -/
def hasDupUrl (db : List DbRow) : Bool :=
  db.any (fun r =>
    match r.source_url with
    | some v =>
      decide (v ≠ "") &&
        decide (2 ≤ (db.filter (fun q => q.source_url = some v)).length)
    | none => false)

/-- The set `SELECT MAX(rowid) ... GROUP BY source_url` as a list: each row
contributes its group's maximum. -/
def maxRowids (db : List DbRow) : List Nat :=
  db.map (fun r => groupMax db r.source_url)

/-- Model of `deduplicate_by_source_url`: if the informative duplicate scan found a
duplicated non-NULL, non-empty `source_url`, delete every row whose rowid is
not one of the per-group maxima; otherwise return early, deleting nothing. -/
def deduplicate_by_source_url (db : List DbRow) : List DbRow :=
  if hasDupUrl db then
    db.filter (fun r => (maxRowids db).any (fun m => r.rowid = m))
  else db

end DeduplicateDb

/-! ## Attachment fetchers

The attachment directory is modelled as the list of paths present
(`fs`), and one network interaction by an oracle `NetOutcome`:
`ok` (HTTP 200 and the body is written in full), `httpError` (non-200
status or an exception before the output file is opened), `failWrite`
(the output file was created and an exception interrupts the body
read/write — a partial file is on disk at the moment of the exception). -/

inductive NetOutcome
  | ok
  | httpError
  | failWrite
deriving DecidableEq, Repr

/-- Model of `os.path.exists(p)` on the modelled directory. -/
def exF (p : String) (fs : List String) : Bool := fs.any (fun q => q = p)

/-- Insert a path into the modelled directory (idempotent, set-like). -/
def addF (p : String) (fs : List String) : List String :=
  if exF p fs then fs else p :: fs

/-- Model of `os.remove(p)` on the modelled directory. -/
def removeF (p : String) (fs : List String) : List String :=
  fs.filter (fun q => q ≠ p)

namespace CaseScraper

/-- The `illegal_chars` list of `CaseScraper.download_attachment`
(src/scraper.py line 447). -/
def illegal_chars : List Char :=
  ['\\', '/', ':', '*', '?', '"', '<', '>', '|', ' ']

/-- Lines 444-453: strip the illegal characters from the case name
(replacing each with `''`), `strip()`, truncate names over 100 chars to
97 chars plus `"..."`. -/
def safe_title (case_name : String) : List Char :=
  let t := case_name.toList.filter (fun c => ¬ illegal_chars.contains c)
  let t := trimL t
  if 100 < t.length then t.take 97 ++ ['.', '.', '.'] else t

/-- Lines 459-464: extension from the lowercased URL, default `.doc`. -/
def file_ext (url : String) : List Char :=
  let u := lowerL url.toList
  if endsL ".docx".toList u then ".docx".toList
  else if endsL ".pdf".toList u then ".pdf".toList
  else ".doc".toList

/-- The file name `f"{safe_title}{file_ext}"` derived by
`CaseScraper.download_attachment`. -/
def derived_file_name (url case_name : String) : String :=
  String.mk (safe_title case_name ++ file_ext url)

/-- Model of `CaseScraper.download_attachment` (src/scraper.py lines 441-503) on the
modelled directory; returns (directory after the call, returned value,
whether a network request was made).  If the derived path already exists the
function returns it at once (line 471-473).  On HTTP error it returns `None`
without creating a file; if the write is interrupted the `except` branch
returns `None` but performs no cleanup, leaving the partial file. -/
def download_attachment (fs : List String) (net : NetOutcome)
    (url case_name : String) : List String × Option String × Bool :=
  let name := derived_file_name url case_name
  if exF name fs then (fs, some name, false)
  else
    match net with
    | .ok => (addF name fs, some name, true)
    | .httpError => (fs, none, true)
    | .failWrite => (addF name fs, none, true)

end CaseScraper

namespace AttachmentDownloader

/-- Model of `AttachmentDownloader.download_attachment` (src/downloader.py lines
13-44): path is `{DOWNLOAD_PATH}/{region}/{case_name}.doc`; no existence
check, no streaming, and the `except` branch performs no cleanup, so an
interrupted write leaves the partial file on disk and returns `None`. -/
def download_attachment (fs : List String) (net : NetOutcome)
    (case_name region : String) : List String × Option String :=
  let file_path := region ++ "/" ++ case_name ++ ".doc"
  match net with
  | .ok => (addF file_path fs, some file_path)
  | .httpError => (fs, none)
  | .failWrite => (addF file_path fs, none)

end AttachmentDownloader

namespace BeijingScraper

/-- Model of `BeijingScraper.download_attachment` (src/beijing_scraper.py lines
190-231): streams into `save_path`; on any exception the `except` branch
removes the file at `save_path` when present and returns `False`. -/
def bj_download_attachment (fs : List String) (net : NetOutcome)
    (save_path : String) : List String × Bool :=
  match net with
  | .ok => (addF save_path fs, true)
  | .httpError => (removeF save_path fs, false)
  | .failWrite => (removeF save_path fs, false)

end BeijingScraper

namespace ShanghaiScraper

/-- Model of `ShanghaiScraper.download_attachment` (src/shanghai_scraper.py lines
206-235): returns `True` without any network request when `save_path`
already exists; otherwise streams, and on failure removes the partial file
and returns `False`.  The third component records whether a network request
was made. -/
def sh_download_attachment (fs : List String) (net : NetOutcome)
    (save_path : String) : List String × Bool × Bool :=
  if exF save_path fs then (fs, true, false)
  else
    match net with
    | .ok => (addF save_path fs, true, true)
    | .httpError => (removeF save_path fs, false, true)
    | .failWrite => (removeF save_path fs, false, true)

/-- The attachment block of `ShanghaiScraper.process_case` (lines 252-261):
download only when the detail page offers a URL and a name and either the
case is new or it has no stored attachment; `attachment_path` stays `None`
whenever the download did not succeed. -/
def sh_attachment_block (existing : Option StoredCase) (d : DetailData)
    (fs : List String) (net : NetOutcome) : Option String :=
  match d.attachment_url, d.attachment_name with
  | some _, some nm =>
    let save_path := "data/attachments/" ++ nm
    if existing.all (fun c => c.attachment_path = none) then
      if (sh_download_attachment fs net save_path).2.1 then some save_path
      else none
    else none
  | _, _ => none

/-- The insert path of `ShanghaiScraper.process_case` (lines 296-309): a new
record is created whatever the attachment outcome was. -/
def sh_new_case (case_title case_url : String) (d : DetailData)
    (attachment_path : Option String) : StoredCase :=
  ⟨case_title, some case_url, attachment_path, some "上海", d.start_date, d.end_date⟩

end ShanghaiScraper

/-! ## Pagination driver (src/scraper.py lines 285-377 and 743-789)

The Playwright page is abstracted to its observable state: the fingerprint
(`inner_text` of the first `.content-3-left-text a`, if any) and whether the
`.layui-laypage-next` button can be found.  The effect of clicking "next" is
an environment-supplied transition `click`; the cases harvested from the
loaded page an environment-supplied `harvest`. -/

structure Browser where
  fingerprint : Option String
  hasNext : Bool

structure CaseItem where
  title : String
  url : String
deriving DecidableEq, Repr

structure PageEnv where
  goto_ok : Bool
  initial : Browser
  click : Browser → Browser
  harvest : Browser → List CaseItem

namespace CaseScraper

/-- Model of `CaseScraper._turn_to_next_page` (lines 743-789).  Returns (page after
the attempt, new `current_page`, success flag, number of click actions
performed).  The page fingerprint is read before and after the click; if it
is unchanged the transition is reported failed and `current_page` is reset
to `None` (lines 777-780).  A missing reference title returns `False`
without clicking; a missing "next" button raises a timeout, and the
`except` branch resets `current_page` and returns `False`. -/
def turn_to_next_page (click : Browser → Browser) (b : Browser)
    (cur : Option Nat) : Browser × Option Nat × Bool × Nat :=
  match b.fingerprint with
  | none => (b, cur, false, 0)
  | some t1 =>
    if b.hasNext then
      let b2 := click b
      match b2.fingerprint with
      | none => (b2, cur, false, 1)
      | some t2 =>
        if t2 = t1 then (b2, none, false, 1)
        else
          match cur with
          | some p => (b2, some (p + 1), true, 1)
          | none => (b2, none, false, 1)
    else (b, none, false, 0)

/-- The `for i in range(page_no - 1)` loop of `parse_list_page_playwright`
(lines 317-323): turn `k` times from page `p`; any failed turn aborts with
`None`.  Also reports the number of clicks performed. -/
def advanceTo (click : Browser → Browser) : Nat → Browser → Nat →
    Option (Browser × Nat) × Nat
  | 0, b, p => (some (b, p), 0)
  | k + 1, b, p =>
    match turn_to_next_page click b (some p) with
    | (b2, cur2, true, c) =>
      let p2 := cur2.getD (p + 1)
      let (res, c2) := advanceTo click k b2 p2
      (res, c + c2)
    | (_, _, false, c) => (none, c)

/-- The retry loop of `CaseScraper.parse_list_page_playwright` (lines
300-377), with `max_retries = 3` as fuel.  State: `none` when
`self.current_page is None` (first visit still pending), otherwise the
current page number together with the abstracted page.  A failed `goto`
or an empty harvest consumes one retry; a failed page turn returns `None`
immediately (lines 320-322 and 328-330).  The second result counts the
"next" click actions performed. -/
def parseListLoop (env : PageEnv) (pageNo : Nat) :
    Nat → Option (Nat × Browser) → Nat → Option (List CaseItem) × Nat
  | 0, _, clicks => (none, clicks)
  | fuel + 1, none, clicks =>
    if env.goto_ok then
      if 1 < pageNo then
        match advanceTo env.click (pageNo - 1) env.initial 1 with
        | (none, c) => (none, clicks + c)
        | (some (b, p), c) =>
          let items := env.harvest b
          if items.isEmpty then
            parseListLoop env pageNo fuel (some (p, b)) (clicks + c)
          else (some items, clicks + c)
      else
        let items := env.harvest env.initial
        if items.isEmpty then
          parseListLoop env pageNo fuel (some (1, env.initial)) clicks
        else (some items, clicks)
    else parseListLoop env pageNo fuel none clicks
  | fuel + 1, some (p, b), clicks =>
    if p < pageNo then
      match turn_to_next_page env.click b (some p) with
      | (b2, cur2, true, c) =>
        let p2 := cur2.getD (p + 1)
        let items := env.harvest b2
        if items.isEmpty then
          parseListLoop env pageNo fuel (some (p2, b2)) (clicks + c)
        else (some items, clicks + c)
      | (_, _, false, c) => (none, clicks + c)
    else
      let items := env.harvest b
      if items.isEmpty then parseListLoop env pageNo fuel (some (p, b)) clicks
      else (some items, clicks)

/-- Model of `CaseScraper.parse_list_page_playwright` entry point: fresh state,
`max_retries = 3`. -/
def parse_list_page_playwright (env : PageEnv) (pageNo : Nat) :
    Option (List CaseItem) × Nat :=
  parseListLoop env pageNo 3 none 0

end CaseScraper

/-! ## Date normalization (src/utils.py `DateParser`, src/parsers.py `BaseParser`)

Python's `datetime.strptime` compiles each directive to a small regex
(`%Y` → `\d\d\d\d`, `%m` → `1[0-2]|0[1-9]|[1-9]`, `%d` →
`3[01]|[12]\d|0[1-9]|[1-9]`, `%H` → `2[0-3]|[0-1]\d|\d`, `%M`/`%S` →
`[0-5]\d|\d`), matches the concatenation at the start of the string with
ordinary backtracking, requires the match to consume the whole string, and
finally validates via the `datetime` constructor (year ≥ 1, day within the
month).  Each token below returns its alternatives in the engine's
backtracking priority order, so the head of the composed alternative list
is exactly the engine's match. -/

structure PyDateTime where
  year : Nat
  month : Nat
  day : Nat
  hour : Nat
  minute : Nat
  second : Nat
deriving DecidableEq, Repr

/-- Numeric value of an ASCII digit. -/
def dChar (c : Char) : Nat := c.toNat - 48

/-- Model of `%Y`: exactly four digits. -/
def matchY4 : List Char → List (Nat × List Char)
  | a :: b :: c :: d :: rest =>
    if a.isDigit ∧ b.isDigit ∧ c.isDigit ∧ d.isDigit then
      [((((dChar a * 10 + dChar b) * 10 + dChar c) * 10 + dChar d), rest)]
    else []
  | _ => []

/-- Model of `%m` = `1[0-2]|0[1-9]|[1-9]`, alternatives in priority order. -/
def monthAlts : List Char → List (Nat × List Char)
  | '1' :: b :: rest =>
    (if '0' ≤ b ∧ b ≤ '2' then [(10 + dChar b, rest)] else []) ++ [(1, b :: rest)]
  | '0' :: b :: rest => if '1' ≤ b ∧ b ≤ '9' then [(dChar b, rest)] else []
  | c :: rest => if '1' ≤ c ∧ c ≤ '9' then [(dChar c, rest)] else []
  | [] => []

/-- Model of `%d` = `3[01]|[12]\d|0[1-9]|[1-9]`, alternatives in priority order. -/
def dayAlts : List Char → List (Nat × List Char)
  | '3' :: b :: rest =>
    (if b = '0' ∨ b = '1' then [(30 + dChar b, rest)] else []) ++ [(3, b :: rest)]
  | c :: b :: rest =>
    if c = '1' ∨ c = '2' then
      (if b.isDigit then [(dChar c * 10 + dChar b, rest)] else []) ++
        [(dChar c, b :: rest)]
    else if c = '0' then
      if '1' ≤ b ∧ b ≤ '9' then [(dChar b, rest)] else []
    else if '1' ≤ c ∧ c ≤ '9' then [(dChar c, b :: rest)]
    else []
  | [c] => if '1' ≤ c ∧ c ≤ '9' then [(dChar c, [])] else []
  | [] => []

/-- Model of `%H` = `2[0-3]|[0-1]\d|\d`. -/
def hourAlts : List Char → List (Nat × List Char)
  | '2' :: b :: rest =>
    (if '0' ≤ b ∧ b ≤ '3' then [(20 + dChar b, rest)] else []) ++ [(2, b :: rest)]
  | c :: b :: rest =>
    if c = '0' ∨ c = '1' then
      (if b.isDigit then [(dChar c * 10 + dChar b, rest)] else []) ++
        [(dChar c, b :: rest)]
    else if c.isDigit then [(dChar c, b :: rest)]
    else []
  | [c] => if c.isDigit then [(dChar c, [])] else []
  | [] => []

/-- Model of `%M` / `%S` = `[0-5]\d|\d`. -/
def msAlts : List Char → List (Nat × List Char)
  | c :: b :: rest =>
    if '0' ≤ c ∧ c ≤ '5' then
      (if b.isDigit then [(dChar c * 10 + dChar b, rest)] else []) ++
        [(dChar c, b :: rest)]
    else if c.isDigit then [(dChar c, b :: rest)]
    else []
  | [c] => if c.isDigit then [(dChar c, [])] else []
  | [] => []

/-- A literal character inside a format string. -/
def litTok (ch : Char) : List Char → List (List Char)
  | c :: rest => if c = ch then [rest] else []
  | [] => []

/-- Gregorian leap year, as `datetime` uses. -/
def isLeap (y : Nat) : Bool := (y % 4 = 0 && y % 100 ≠ 0) || y % 400 = 0

/-- Days in a month, as the `datetime` constructor validates. -/
def daysInMonth (y m : Nat) : Nat :=
  if m = 2 then (if isLeap y then 29 else 28)
  else if m = 4 ∨ m = 6 ∨ m = 9 ∨ m = 11 then 30
  else 31

/-- The `datetime(year, month, day)` constructor check (`MINYEAR = 1`;
month and day lower bounds are already enforced by the tokens). -/
def dateValid (y m d : Nat) : Prop := 1 ≤ y ∧ d ≤ daysInMonth y m

instance (y m d : Nat) : Decidable (dateValid y m d) := by
  unfold dateValid; infer_instance

/-- All pattern matches of `%Y-%m-%d` at the start of the string, in
backtracking priority order. -/
def ymdAlts (cs : List Char) : List (Nat × Nat × Nat × List Char) :=
  (matchY4 cs).flatMap fun yr =>
  (litTok '-' yr.2).flatMap fun r2 =>
  (monthAlts r2).flatMap fun mr =>
  (litTok '-' mr.2).flatMap fun r4 =>
  (dayAlts r4).map fun dr => (yr.1, mr.1, dr.1, dr.2)

/-- Model of `datetime.strptime(s, '%Y-%m-%d')`: take the engine's match (the head
alternative), require full consumption, then validate the date. -/
def strptimeYmd (cs : List Char) : Option PyDateTime :=
  match ymdAlts cs with
  | [] => none
  | (y, m, d, rest) :: _ =>
    if rest = [] ∧ dateValid y m d then some ⟨y, m, d, 0, 0, 0⟩ else none

/-- Pattern matches of `%Y-%m-%d %H:%M:%S`. -/
def ymdHmsAlts (cs : List Char) : List (PyDateTime × List Char) :=
  (ymdAlts cs).flatMap fun t =>
  match t with
  | (y, m, d, r) =>
    (litTok ' ' r).flatMap fun r1 =>
    (hourAlts r1).flatMap fun hr =>
    (litTok ':' hr.2).flatMap fun r3 =>
    (msAlts r3).flatMap fun mir =>
    (litTok ':' mir.2).flatMap fun r5 =>
    (msAlts r5).map fun sr => (⟨y, m, d, hr.1, mir.1, sr.1⟩, sr.2)

/-- Model of `datetime.strptime(s, '%Y-%m-%d %H:%M:%S')`. -/
def strptimeYmdHms (cs : List Char) : Option PyDateTime :=
  match ymdHmsAlts cs with
  | [] => none
  | (dt, rest) :: _ =>
    if rest = [] ∧ dateValid dt.year dt.month dt.day then some dt else none

/-- Pattern matches of `%Y%m%d`. -/
def compactAlts (cs : List Char) : List (Nat × Nat × Nat × List Char) :=
  (matchY4 cs).flatMap fun yr =>
  (monthAlts yr.2).flatMap fun mr =>
  (dayAlts mr.2).map fun dr => (yr.1, mr.1, dr.1, dr.2)

/-- Model of `datetime.strptime(s, '%Y%m%d')`. -/
def strptimeCompact (cs : List Char) : Option PyDateTime :=
  match compactAlts cs with
  | [] => none
  | (y, m, d, rest) :: _ =>
    if rest = [] ∧ dateValid y m d then some ⟨y, m, d, 0, 0, 0⟩ else none

namespace DateParser

/-- Model of `DateParser.parse_date_string` (src/utils.py lines 7-33): strip, map
`年`/`月` to `-` and drop `日`, then try the three formats in order,
continuing past a `ValueError`. -/
def parse_date_string_l (cs : List Char) : Option PyDateTime :=
  let t := trimL cs
  let t := replC '年' ['-'] t
  let t := replC '月' ['-'] t
  let t := replC '日' [] t
  match strptimeYmd t with
  | some dt => some dt
  | none =>
    match strptimeYmdHms t with
    | some dt => some dt
    | none => strptimeCompact t

/-- String-level wrapper for `DateParser.parse_date_string`. -/
def parse_date_string (s : String) : Option PyDateTime :=
  parse_date_string_l s.toList

/-- Model of `DateParser.extract_date_range` (src/utils.py lines 35-55), as called in
this repository (no explicit pattern argument): split the text at `至`; a
two-piece split parses each side, anything else — no `至`, or several,
which makes the tuple unpacking raise — yields `(None, None)`. -/
def extract_date_range (text : String) : Option PyDateTime × Option PyDateTime :=
  match splitC '至' text.toList with
  | [a, b] => (parse_date_string_l (trimL a), parse_date_string_l (trimL b))
  | _ => (none, none)

end DateParser

/-! ## `BaseParser.extract_date_range` (src/parsers.py lines 60-107)

The method collapses whitespace (`' '.join(text.split())`), then runs
`re.search` with five alternative range patterns in order; the first match
yields two captured date substrings, a year is prefixed to a truncated
dot-format end date, both substrings are normalized (`年`/`月` → `-`,
drop `日`, `.` → `-`) and re-parsed with `%Y-%m-%d`; a conversion failure
falls through to the next pattern.  A regex matcher below maps an input
suffix to the list of (consumed, rest) alternatives in backtracking
priority order, so the head of the list at the first matching start
position is `re.search`'s match. -/

def RxM := List Char → List (List Char × List Char)

/-- The empty regex. -/
def mnull : RxM := fun cs => [([], cs)]

/-- Model of `\d{1,2}` (greedy). -/
def mdig : RxM := fun cs =>
  match cs with
  | a :: b :: rest =>
    if a.isDigit then
      if b.isDigit then [([a, b], rest), ([a], b :: rest)] else [([a], b :: rest)]
    else []
  | [a] => if a.isDigit then [([a], [])] else []
  | [] => []

/-- Model of `\d{4}`. -/
def mdig4 : RxM := fun cs =>
  match cs with
  | a :: b :: c :: d :: rest =>
    if a.isDigit ∧ b.isDigit ∧ c.isDigit ∧ d.isDigit then [([a, b, c, d], rest)]
    else []
  | _ => []

/-- A character class such as `[-年]`. -/
def mcls (cls : List Char) : RxM := fun cs =>
  match cs with
  | c :: rest => if cls.contains c then [([c], rest)] else []
  | [] => []

/-- An optional character class such as `[日]?` (greedy). -/
def mopt (cls : List Char) : RxM := fun cs =>
  (match cs with
   | c :: rest => if cls.contains c then [([c], rest)] else []
   | [] => []) ++ [([], cs)]

/-- Model of `\s*` (greedy): longest first. -/
def mws : RxM
  | [] => [([], [])]
  | c :: rest =>
    if pyWs c then ((mws rest).map fun pr => (c :: pr.1, pr.2)) ++ [([], c :: rest)]
    else [([], c :: rest)]

/-- A literal string. -/
def mlit (pat : List Char) : RxM := fun cs =>
  if startsL pat cs then [(pat, cs.drop pat.length)] else []

/-- Regex concatenation. -/
def mseq (p q : RxM) : RxM := fun cs =>
  (p cs).flatMap fun pr => (q pr.2).map fun qr => (pr.1 ++ qr.1, qr.2)

/-- A full date atom `\d{4} c1 \d{1,2} c2 \d{1,2} opt?`. -/
def mdateY (c1 c2 opt : List Char) : RxM :=
  mseq mdig4 (mseq (mcls c1) (mseq mdig (mseq (mcls c2) (mseq mdig (mopt opt)))))

/-- A year-less date atom `\d{1,2} c1 \d{1,2} opt?` (pattern 3's end date). -/
def mdateNoY (c1 opt : List Char) : RxM :=
  mseq mdig (mseq (mcls c1) (mseq mdig (mopt opt)))

/-- The separator `\s* sep \s*` between the two captured dates. -/
def mmid (sep : List Char) : RxM := mseq mws (mseq (mcls sep) mws)

/-- All matches of `pre (g1) mid (g2) post` at the start of the string,
returning the two captured groups, in priority order. -/
def matchRangeAt (pre g1 mid g2 post : RxM) (cs : List Char) :
    List (List Char × List Char) :=
  (pre cs).flatMap fun pr =>
  (g1 pr.2).flatMap fun g1r =>
  (mid g1r.2).flatMap fun midr =>
  (g2 midr.2).flatMap fun g2r =>
  (post g2r.2).map fun _ => (g1r.1, g2r.1)

/-- Model of `re.search`: the leftmost start position that matches, engine order
among alternatives at that position. -/
def searchRange (pre g1 mid g2 post : RxM) : List Char → Option (List Char × List Char)
  | [] =>
    match matchRangeAt pre g1 mid g2 post [] with
    | p :: _ => some p
    | [] => none
  | c :: rest =>
    match matchRangeAt pre g1 mid g2 post (c :: rest) with
    | p :: _ => some p
    | [] => searchRange pre g1 mid g2 post rest

/-- Pattern 1: `(\d{4}[-年]\d{1,2}[-月]\d{1,2}[日]?)\s*[至到-]\s*(...)`. -/
def p1search : List Char → Option (List Char × List Char) :=
  searchRange mnull (mdateY ['-', '年'] ['-', '月'] ['日'])
    (mmid ['至', '到', '-']) (mdateY ['-', '年'] ['-', '月'] ['日']) mnull

/-- Pattern 2: `(\d{4}[.年]\d{1,2}[.月]\d{1,2}[日]?)\s*[-至]\s*(...)`. -/
def p2search : List Char → Option (List Char × List Char) :=
  searchRange mnull (mdateY ['.', '年'] ['.', '月'] ['日'])
    (mmid ['-', '至']) (mdateY ['.', '年'] ['.', '月'] ['日']) mnull

/-- Pattern 3: year-omitted end date
`(\d{4}[.年]\d{1,2}[.月]\d{1,2}[日]?)\s*[-至]\s*(\d{1,2}[.月]\d{1,2}[日]?)`. -/
def p3search : List Char → Option (List Char × List Char) :=
  searchRange mnull (mdateY ['.', '年'] ['.', '月'] ['日'])
    (mmid ['-', '至']) (mdateNoY ['.', '月'] ['日']) mnull

/-- Pattern 4: `公示期限：\s*(\d{4}[年-]\d{1,2}[月-]\d{1,2}[日]?)\s*[-至]\s*(...)`. -/
def p4search : List Char → Option (List Char × List Char) :=
  searchRange (mseq (mlit "公示期限：".toList) mws)
    (mdateY ['年', '-'] ['月', '-'] ['日'])
    (mmid ['-', '至']) (mdateY ['年', '-'] ['月', '-'] ['日']) mnull

/-- Pattern 5: `[（(](\d{4}[.年]\d{1,2}[.月]\d{1,2}[日]?)\s*[-至]\s*(...)[)）]`. -/
def p5search : List Char → Option (List Char × List Char) :=
  searchRange (mcls ['（', '(']) (mdateY ['.', '年'] ['.', '月'] ['日'])
    (mmid ['-', '至']) (mdateY ['.', '年'] ['.', '月'] ['日']) (mcls [')', '）'])

/-- The normalization chain
`.replace('年','-').replace('月','-').replace('日','').replace('.','-')`. -/
def masterDateStr (l : List Char) : List Char :=
  replC '.' ['-'] (replC '日' [] (replC '月' ['-'] (replC '年' ['-'] l)))

/-- Model of `strftime('%Y-%m-%d')` zero padding. -/
def pad2 (n : Nat) : List Char :=
  if n < 10 then '0' :: Nat.toDigits 10 n else Nat.toDigits 10 n

/-- Four-digit year padding of `strftime('%Y-...')`. -/
def pad4 (n : Nat) : List Char :=
  let d := Nat.toDigits 10 n
  List.replicate (4 - d.length) '0' ++ d

/-- Model of `dt.strftime('%Y-%m-%d')`. -/
def fmtYmd (dt : PyDateTime) : String :=
  String.mk (pad4 dt.year ++ '-' :: (pad2 dt.month ++ '-' :: pad2 dt.day))

/-- Lines 85-105: prefix the start date's year when the end date's first
dot-component has at most two characters, normalize both substrings and
re-parse them with `%Y-%m-%d`; `None` stands for the `except: continue`. -/
def convertPair (g1 g2 : List Char) : Option (String × String) :=
  let e := if ((splitC '.' g2).headD []).length ≤ 2 then
             ((splitC '.' g1).headD []) ++ '.' :: g2
           else g2
  match strptimeYmd (masterDateStr g1), strptimeYmd (masterDateStr e) with
  | some a, some b => some (fmtYmd a, fmtYmd b)
  | _, _ => none

/-- The `for pattern in patterns` loop: first pattern whose match also
converts wins; conversion failure continues with the next pattern. -/
def tryPatterns : List (List Char → Option (List Char × List Char)) → List Char →
    Option String × Option String
  | [], _ => (none, none)
  | p :: rest, t =>
    match p t with
    | none => tryPatterns rest t
    | some (g1, g2) =>
      match convertPair g1 g2 with
      | some (s, e) => (some s, some e)
      | none => tryPatterns rest t

namespace BaseParser

/-- Model of `BaseParser.extract_date_range` (src/parsers.py lines 60-107). -/
def extract_date_range (text : String) : Option String × Option String :=
  let cs := text.toList
  if cs.isEmpty then (none, none)
  else
    tryPatterns [p1search, p2search, p3search, p4search, p5search]
      (joinSp (splitWsL cs))

end BaseParser

/-! ## Claim theorems -/

/-- C3.  Date normalization round-trip: `DateParser.parse_date_string` maps
`"2025年3月31日"` to March 31, 2025, whose ISO rendering is `"2025-03-31"`;
both range extractors map `"2025年4月8日至2025年4月17日"` to the pair
(2025-04-08, 2025-04-17); and `BaseParser.extract_date_range` parses the
whitespace-corrupted `"公 示 期：2025年4月8日至2025年4月17日"` to exactly the
same start/end pair as the uncorrupted range. -/
theorem C3_date_normalization :
    DateParser.parse_date_string "2025年3月31日" = some ⟨2025, 3, 31, 0, 0, 0⟩ ∧
    fmtYmd ⟨2025, 3, 31, 0, 0, 0⟩ = "2025-03-31" ∧
    DateParser.extract_date_range "2025年4月8日至2025年4月17日" =
      (some ⟨2025, 4, 8, 0, 0, 0⟩, some ⟨2025, 4, 17, 0, 0, 0⟩) ∧
    BaseParser.extract_date_range "2025年4月8日至2025年4月17日" =
      (some "2025-04-08", some "2025-04-17") ∧
    BaseParser.extract_date_range "公 示 期：2025年4月8日至2025年4月17日" =
      BaseParser.extract_date_range "2025年4月8日至2025年4月17日" := by
  refine ⟨?_, ?_, ?_, ?_, ?_⟩ <;> decide

/-- C4.  Parser contract on missing fields: for every document, a missing
(or empty, which Python's `if not title` also treats as missing) title makes
`BaseParser.parse` fail with no record, while a present title with no
extracted date range still yields a record whose start and end dates are
null. -/
theorem C4_parse_missing_fields (d : DocExtract) :
    ((d.title = none ∨ d.title = some "") → BaseParser.parse d = none) ∧
    (∀ t, d.title = some t → t ≠ "" →
      BaseParser.parse d = some ⟨t, d.start_date, d.end_date, d.attachment_url⟩) ∧
    (∀ t, d.title = some t → t ≠ "" → d.start_date = none → d.end_date = none →
      ∃ r, BaseParser.parse d = some r ∧ r.case_name = t ∧
        r.notice_start_date = none ∧ r.notice_end_date = none) := by
  refine ⟨?_, ?_, ?_⟩
  · rintro (h | h) <;> simp [BaseParser.parse, h]
  · intro t ht hne
    simp [BaseParser.parse, ht, hne]
  · intro t ht hne h1 h2
    exact ⟨⟨t, none, none, d.attachment_url⟩, by simp [BaseParser.parse, ht, hne, h1, h2]⟩

/-- Witness for C4 at a concrete document: the title is present and no date
range was extracted, and the parse still succeeds with null dates. -/
theorem C4_parse_missing_fields_witness :
    let d : DocExtract := ⟨some "案件甲", none, none, some "http://e/a.doc"⟩
    d.title = some "案件甲" ∧ "案件甲" ≠ "" ∧
    BaseParser.parse d = some ⟨"案件甲", none, none, some "http://e/a.doc"⟩ :=
  ⟨by decide, by decide,
    (C4_parse_missing_fields ⟨some "案件甲", none, none, some "http://e/a.doc"⟩).2.1
      "案件甲" rfl (by decide)⟩

/-- A stored record with both dates present, as produced by an earlier run. -/
def c1Row : StoredCase :=
  ⟨"案A", some "http://u", none, some "陕西", some "2025-01-01", some "2025-01-10"⟩

/-- A later Shaanxi sighting of the same case: start-date extraction failed,
end-date extraction produced a different value. -/
def c1Detail : DetailData := ⟨none, some "2025-02-02", none, none⟩

/-- C1, counterexample.  The Shaanxi reconciler
(`ShaanxiScraper.process_case`, src/shaanxi_scraper.py lines 338-339) is a
reconciliation of a sighting of a stored case, yet it overwrites a non-null
`notice_start_date` with null and a non-null `notice_end_date` with the
differing newly extracted value — so monotonic fill fails on the code as
stated. -/
theorem C1_counterexample :
    c1Row.notice_start_date = some "2025-01-01" ∧
    c1Row.notice_end_date = some "2025-01-10" ∧
    (ShaanxiScraper.sx_update c1Row "案A" "http://u" c1Detail none).notice_start_date
      = none ∧
    (ShaanxiScraper.sx_update c1Row "案A" "http://u" c1Detail none).notice_end_date
      = some "2025-02-02" ∧
    ¬ (∀ (c : StoredCase) (ft cu : String) (d : DetailData) (dl : Option String),
        c.notice_start_date ≠ none →
        (ShaanxiScraper.sx_update c ft cu d dl).notice_start_date
          = c.notice_start_date) := by
  refine ⟨by decide, by decide, by decide, by decide, ?_⟩
  intro h
  have := h c1Row "案A" "http://u" c1Detail none (by decide)
  exact absurd this (by decide)

/-- C1, amended.  Monotonic fill holds in the `save_to_db` UPDATE and in the
Beijing, Chongqing and Shanghai update paths: a present
`notice_start_date`/`notice_end_date`/`attachment_path` is never changed, and
these fields change only from null to a non-null extracted value.  The
Shaanxi update path instead always stores the newly extracted dates
(overwriting differing present values, even with null); only its
`attachment_path` is monotonic. -/
theorem C1_amended :
    (∀ (row : StoredCase) (d : DbData) (v : String),
      (row.notice_start_date = some v →
        (CaseScraper.update_case_row row d).notice_start_date = some v) ∧
      (row.notice_end_date = some v →
        (CaseScraper.update_case_row row d).notice_end_date = some v) ∧
      ((CaseScraper.update_case_row row d).notice_start_date
          ≠ row.notice_start_date →
        row.notice_start_date = none ∧ d.notice_start_date ≠ none ∧
        (CaseScraper.update_case_row row d).notice_start_date
          = d.notice_start_date) ∧
      ((CaseScraper.update_case_row row d).notice_end_date
          ≠ row.notice_end_date →
        row.notice_end_date = none ∧ d.notice_end_date ≠ none ∧
        (CaseScraper.update_case_row row d).notice_end_date
          = d.notice_end_date) ∧
      (CaseScraper.update_case_row row d).attachment_path
        = row.attachment_path) ∧
    (∀ (c : StoredCase) (d : DetailData) (v : String),
      (c.notice_start_date = some v →
        (BeijingScraper.bj_update c d).notice_start_date = some v) ∧
      (c.notice_end_date = some v →
        (BeijingScraper.bj_update c d).notice_end_date = some v) ∧
      ((BeijingScraper.bj_update c d).notice_start_date
          ≠ c.notice_start_date →
        c.notice_start_date = none ∧ d.start_date ≠ none) ∧
      ((BeijingScraper.bj_update c d).notice_end_date ≠ c.notice_end_date →
        c.notice_end_date = none ∧ d.end_date ≠ none) ∧
      (BeijingScraper.bj_update c d).attachment_path = c.attachment_path) ∧
    (∀ (c : StoredCase) (d : DetailData) (v : String),
      (c.notice_start_date = some v →
        (ChongqingScraper.cq_update c d).notice_start_date = some v) ∧
      (c.notice_end_date = some v →
        (ChongqingScraper.cq_update c d).notice_end_date = some v) ∧
      (ChongqingScraper.cq_update c d).attachment_path = c.attachment_path) ∧
    (∀ (c : StoredCase) (d : DetailData) (ap : Option String) (v : String),
      (c.notice_start_date = some v →
        (ShanghaiScraper.sh_update c d ap).notice_start_date = some v) ∧
      (c.notice_end_date = some v →
        (ShanghaiScraper.sh_update c d ap).notice_end_date = some v) ∧
      (c.attachment_path = some v →
        (ShanghaiScraper.sh_update c d ap).attachment_path = some v) ∧
      ((ShanghaiScraper.sh_update c d ap).attachment_path
          ≠ c.attachment_path →
        c.attachment_path = none ∧ ap ≠ none ∧
        (ShanghaiScraper.sh_update c d ap).attachment_path = ap)) ∧
    (∀ (c : StoredCase) (ft cu : String) (d : DetailData) (dl : Option String) (v : String),
      (c.attachment_path = some v →
        (ShaanxiScraper.sx_update c ft cu d dl).attachment_path = some v) ∧
      (ShaanxiScraper.sx_update c ft cu d dl).notice_start_date = d.start_date ∧
      (ShaanxiScraper.sx_update c ft cu d dl).notice_end_date = d.end_date) := by
  refine ⟨?_, ?_, ?_, ?_, ?_⟩
  · intro row d v
    refine ⟨?_, ?_, ?_, ?_, ?_⟩
    · intro h; simp [CaseScraper.update_case_row, h]
    · intro h; simp [CaseScraper.update_case_row, h]
    · intro h
      by_cases hc : row.notice_start_date = none ∧ d.notice_start_date ≠ none
      · exact ⟨hc.1, hc.2, by simp [CaseScraper.update_case_row, hc]⟩
      · exact absurd (by simp [CaseScraper.update_case_row, hc]) h
    · intro h
      by_cases hc : row.notice_end_date = none ∧ d.notice_end_date ≠ none
      · exact ⟨hc.1, hc.2, by simp [CaseScraper.update_case_row, hc]⟩
      · exact absurd (by simp [CaseScraper.update_case_row, hc]) h
    · simp [CaseScraper.update_case_row]
  · intro c d v
    refine ⟨?_, ?_, ?_, ?_, ?_⟩
    · intro h; simp [BeijingScraper.bj_update, h]
    · intro h; simp [BeijingScraper.bj_update, h]
    · intro h
      by_cases hc : c.notice_start_date = none ∧ d.start_date ≠ none
      · exact hc
      · exact absurd (by simp [BeijingScraper.bj_update, hc]) h
    · intro h
      by_cases hc : c.notice_end_date = none ∧ d.end_date ≠ none
      · exact hc
      · exact absurd (by simp [BeijingScraper.bj_update, hc]) h
    · simp [BeijingScraper.bj_update]
  · intro c d v
    refine ⟨?_, ?_, ?_⟩
    · intro h; simp [ChongqingScraper.cq_update, h]
    · intro h; simp [ChongqingScraper.cq_update, h]
    · simp [ChongqingScraper.cq_update]
  · intro c d ap v
    refine ⟨?_, ?_, ?_, ?_⟩
    · intro h; simp [ShanghaiScraper.sh_update, h]
    · intro h; simp [ShanghaiScraper.sh_update, h]
    · intro h; simp [ShanghaiScraper.sh_update, h]
    · intro h
      by_cases hc : ap ≠ none ∧ c.attachment_path = none
      · exact ⟨hc.2, hc.1, by simp [ShanghaiScraper.sh_update, hc]⟩
      · exact absurd (by simp [ShanghaiScraper.sh_update, hc]) h
  · intro c ft cu d dl v
    refine ⟨?_, ?_, ?_⟩
    · intro h; simp [ShaanxiScraper.sx_update, h]
    · simp [ShaanxiScraper.sx_update]
    · simp [ShaanxiScraper.sx_update]

/-- Witness for C1 at concrete inputs: a stored start date survives a
`save_to_db` UPDATE carrying a different date, and a stored Shanghai
attachment survives a new attachment candidate. -/
theorem C1_amended_witness :
    c1Row.notice_start_date = some "2025-01-01" ∧
    (CaseScraper.update_case_row c1Row
        ⟨"案A", some "http://u", none, "上海", some "2030-12-31", none⟩).notice_start_date
      = some "2025-01-01" ∧
    (ShanghaiScraper.sh_update c1Row c1Detail (some "p.doc")).notice_end_date
      = some "2025-01-10" :=
  ⟨by decide,
   (C1_amended.1 c1Row ⟨"案A", some "http://u", none, "上海", some "2030-12-31", none⟩
      "2025-01-01").1 (by decide),
   ((C1_amended.2.2.2.1 c1Row c1Detail (some "p.doc") "2025-01-10").2.1) (by decide)⟩

/-- A stored record whose region is `'北京'`, reconciled by the SAMR
pipeline with current source region `'上海'`. -/
def c2Row : StoredCase := ⟨"案B", some "http://v", none, some "北京", none, none⟩

/-- The `db_data` of a `save_to_db` call whose current source region is
`'上海'`. -/
def c2Data : DbData := ⟨"案B", some "http://v", none, "上海", none, none⟩

/-- C2, counterexample.  The `save_to_db` UPDATE (src/scraper.py lines
548-552) only fills `region` when the stored value is NULL or `''`: a stored
`'北京'` differing from the current source's `'上海'` is left unchanged, so
"region is corrected whenever it mismatches" fails on this reconciliation
path as stated. -/
theorem C2_counterexample :
    c2Row.region = some "北京" ∧ c2Data.region = "上海" ∧
    (CaseScraper.update_case_row c2Row c2Data).region = some "北京" ∧
    (CaseScraper.update_case_row c2Row c2Data).region ≠ some c2Data.region ∧
    ¬ (∀ (row : StoredCase) (d : DbData), row.region ≠ some d.region →
        (CaseScraper.update_case_row row d).region = some d.region) := by
  refine ⟨by decide, by decide, by decide, by decide, ?_⟩
  intro h
  have := h c2Row c2Data (by decide)
  exact absurd this (by decide)

/-- C2, amended.  The per-source reconcilers (Beijing, Chongqing, Shanghai,
Shaanxi) do force `region` to the current source's region on every update of
an existing record; the generic `save_to_db` UPDATE instead only fills
`region` when it is NULL or empty (from a non-empty current region) and
never overwrites a non-empty mismatching value. -/
theorem C2_amended :
    (∀ (c : StoredCase) (d : DetailData),
      (BeijingScraper.bj_update c d).region = some "北京") ∧
    (∀ (c : StoredCase) (d : DetailData),
      (ChongqingScraper.cq_update c d).region = some "重庆") ∧
    (∀ (c : StoredCase) (d : DetailData) (ap : Option String),
      (ShanghaiScraper.sh_update c d ap).region = some "上海") ∧
    (∀ (c : StoredCase) (ft cu : String) (d : DetailData) (dl : Option String),
      (ShaanxiScraper.sx_update c ft cu d dl).region = some "陕西") ∧
    (∀ (row : StoredCase) (d : DbData),
      ((row.region = none ∨ row.region = some "") → d.region ≠ "" →
        (CaseScraper.update_case_row row d).region = some d.region) ∧
      (∀ r, row.region = some r → r ≠ "" →
        (CaseScraper.update_case_row row d).region = some r)) := by
  refine ⟨?_, ?_, ?_, ?_, ?_⟩
  · intro c d
    by_cases h : c.region = some "北京" <;> simp [BeijingScraper.bj_update, h]
  · intro c d
    by_cases h : c.region = some "重庆" <;> simp [ChongqingScraper.cq_update, h]
  · intro c d ap
    by_cases h : c.region = some "上海" <;> simp [ShanghaiScraper.sh_update, h]
  · intro c ft cu d dl
    by_cases h : c.region = some "陕西" <;> simp [ShaanxiScraper.sx_update, h]
  · intro row d
    constructor
    · intro h1 h2; simp [CaseScraper.update_case_row, h1, h2]
    · intro r h1 h2; simp [CaseScraper.update_case_row, h1, h2]

/-- Witness for C2 at concrete inputs: the Beijing updater corrects a
mismatching region, and `save_to_db` fills an empty one. -/
theorem C2_amended_witness :
    (BeijingScraper.bj_update c2Row c1Detail).region = some "北京" ∧
    (CaseScraper.update_case_row ⟨"案B", none, none, none, none, none⟩
        c2Data).region = some "上海" :=
  ⟨C2_amended.1 c2Row c1Detail,
   (C2_amended.2.2.2.2 ⟨"案B", none, none, none, none, none⟩ c2Data).1
     (Or.inl rfl) (by decide)⟩

/-- The inserted path exists afterwards. -/
theorem exF_addF (p : String) (fs : List String) : exF p (addF p fs) = true := by
  by_cases h : exF p fs
  · simp [addF, h]
  · have h' : p ∉ fs := by simpa [exF] using h
    simp [addF, exF, h']

/-- The removed path does not exist afterwards. -/
theorem exF_removeF (p : String) (fs : List String) : exF p (removeF p fs) = false := by
  simp [exF, removeF, List.any_eq_true]

/-- C6.  Attachment fetch idempotence of `CaseScraper.download_attachment`:
whenever the derived file path exists — in particular in the state produced
by one successful acquisition — a further call makes no network request and
returns the derived name, and this holds for any other case identity/URL
deriving the same file name (dedup is by derived filename only).  Likewise,
`ShanghaiScraper.download_attachment` skips the fetch when its target path
exists. -/
theorem C6_attachment_idempotent :
    (∀ (fs : List String) (net : NetOutcome) (url cn : String),
      exF (CaseScraper.derived_file_name url cn) fs = true →
      CaseScraper.download_attachment fs net url cn =
        (fs, some (CaseScraper.derived_file_name url cn), false)) ∧
    (∀ (fs : List String) (net : NetOutcome) (url cn : String),
      CaseScraper.download_attachment
          (CaseScraper.download_attachment fs .ok url cn).1 net url cn =
        ((CaseScraper.download_attachment fs .ok url cn).1,
          some (CaseScraper.derived_file_name url cn), false)) ∧
    (∀ (fs : List String) (net : NetOutcome) (url cn url2 cn2 : String),
      CaseScraper.derived_file_name url2 cn2
          = CaseScraper.derived_file_name url cn →
      CaseScraper.download_attachment
          (CaseScraper.download_attachment fs .ok url cn).1 net url2 cn2 =
        ((CaseScraper.download_attachment fs .ok url cn).1,
          some (CaseScraper.derived_file_name url cn), false)) ∧
    (∀ (fs : List String) (net : NetOutcome) (p : String),
      exF p fs = true →
      ShanghaiScraper.sh_download_attachment fs net p = (fs, true, false)) := by
  have key : ∀ (fs : List String) (net : NetOutcome) (url cn : String),
      exF (CaseScraper.derived_file_name url cn) fs = true →
      CaseScraper.download_attachment fs net url cn =
        (fs, some (CaseScraper.derived_file_name url cn), false) := by
    intro fs net url cn h
    simp [CaseScraper.download_attachment, h]
  have okHas : ∀ (fs : List String) (url cn : String),
      exF (CaseScraper.derived_file_name url cn)
        (CaseScraper.download_attachment fs .ok url cn).1 = true := by
    intro fs url cn
    by_cases h : exF (CaseScraper.derived_file_name url cn) fs
    · simp [CaseScraper.download_attachment, h]
    · simpa [CaseScraper.download_attachment, h] using
        exF_addF (CaseScraper.derived_file_name url cn) fs
  refine ⟨key, ?_, ?_, ?_⟩
  · intro fs net url cn
    exact key _ net url cn (okHas fs url cn)
  · intro fs net url cn url2 cn2 heq
    have := key (CaseScraper.download_attachment fs .ok url cn).1 net url2 cn2
      (by rw [heq]; exact okHas fs url cn)
    rwa [heq] at this
  · intro fs net p h
    simp [ShanghaiScraper.sh_download_attachment, h]

/-- Witness for C6 at concrete inputs: the state after one successful
acquisition already holds the derived file, and the repeat call is a no-op
returning that name. -/
theorem C6_attachment_idempotent_witness :
    exF (CaseScraper.derived_file_name "http://e/a.pdf" "测试 案件")
        ["测试案件.pdf"] = true ∧
    CaseScraper.download_attachment ["测试案件.pdf"] .ok "http://e/a.pdf" "测试 案件"
      = (["测试案件.pdf"], some "测试案件.pdf", false) :=
  ⟨by decide,
    C6_attachment_idempotent.1 ["测试案件.pdf"] .ok "http://e/a.pdf" "测试 案件"
      (by decide)⟩

/-- C7, counterexample.  Both `CaseScraper.download_attachment`
(src/scraper.py lines 493-503) and `AttachmentDownloader.download_attachment`
(src/downloader.py lines 34-44) return `None` on a failure that interrupts
the body write, but their `except` branches perform no cleanup: the
partially-written file stays at the target path, falsifying "no partial file
remains" as stated. -/
theorem C7_counterexample :
    CaseScraper.download_attachment [] .failWrite "http://e/a.pdf" "测试 案件"
      = (["测试案件.pdf"], none, true) ∧
    exF (CaseScraper.derived_file_name "http://e/a.pdf" "测试 案件")
      ["测试案件.pdf"] = true ∧
    AttachmentDownloader.download_attachment [] .failWrite "案C" "北京"
      = (["北京/案C.doc"], none) ∧
    ¬ (∀ (fs : List String) (url cn : String),
        exF (CaseScraper.derived_file_name url cn)
          (CaseScraper.download_attachment fs .failWrite url cn).1 = false) := by
  refine ⟨by decide, by decide, by decide, ?_⟩
  intro h
  have := h [] "http://e/a.pdf" "测试 案件"
  exact absurd this (by decide)

/-- C7, amended.  The Beijing and Shanghai fetchers do implement the
contract: on any failure (HTTP error or interrupted write) the file at the
target path is removed and failure is reported; the Shanghai caller then
records no attachment for the case and still creates the record, treating
the failure as "no attachment" rather than as fatal.  The generic
`CaseScraper`/`AttachmentDownloader` fetchers return null but may leave a
partial file. -/
theorem C7_amended :
    (∀ (fs : List String) (net : NetOutcome) (p : String), net ≠ .ok →
      exF p (BeijingScraper.bj_download_attachment fs net p).1 = false ∧
      (BeijingScraper.bj_download_attachment fs net p).2 = false) ∧
    (∀ (fs : List String) (net : NetOutcome) (p : String), net ≠ .ok →
      exF p fs = false →
      exF p (ShanghaiScraper.sh_download_attachment fs net p).1 = false ∧
      (ShanghaiScraper.sh_download_attachment fs net p).2.1 = false) ∧
    (∀ (d : DetailData) (fs : List String) (net : NetOutcome) (nm : String),
      net ≠ .ok → d.attachment_name = some nm →
      exF ("data/attachments/" ++ nm) fs = false →
      ShanghaiScraper.sh_attachment_block none d fs net = none) ∧
    (∀ (ct cu : String) (d : DetailData),
      (ShanghaiScraper.sh_new_case ct cu d none).attachment_path = none) := by
  refine ⟨?_, ?_, ?_, ?_⟩
  · intro fs net p hnet
    cases net with
    | ok => exact absurd rfl hnet
    | httpError =>
      exact ⟨exF_removeF p fs, by simp [BeijingScraper.bj_download_attachment]⟩
    | failWrite =>
      exact ⟨exF_removeF p fs, by simp [BeijingScraper.bj_download_attachment]⟩
  · intro fs net p hnet hex
    cases net with
    | ok => exact absurd rfl hnet
    | httpError =>
      exact ⟨by simpa [ShanghaiScraper.sh_download_attachment, hex] using
               exF_removeF p fs,
             by simp [ShanghaiScraper.sh_download_attachment, hex]⟩
    | failWrite =>
      exact ⟨by simpa [ShanghaiScraper.sh_download_attachment, hex] using
               exF_removeF p fs,
             by simp [ShanghaiScraper.sh_download_attachment, hex]⟩
  · intro d fs net nm hnet hnm hex
    cases hu : d.attachment_url with
    | none => simp [ShanghaiScraper.sh_attachment_block, hu, hnm]
    | some u =>
      cases net with
      | ok => exact absurd rfl hnet
      | httpError =>
        simp [ShanghaiScraper.sh_attachment_block, hu, hnm, Option.all,
          ShanghaiScraper.sh_download_attachment, hex]
      | failWrite =>
        simp [ShanghaiScraper.sh_attachment_block, hu, hnm, Option.all,
          ShanghaiScraper.sh_download_attachment, hex]
  · intro ct cu d
    rfl

/-- Witness for C7's amended statement at concrete inputs: an interrupted
Beijing download leaves no file and reports failure, and the Shanghai
new-case path still creates the record with a null attachment. -/
theorem C7_amended_witness :
    exF "att/案D.pdf"
        (BeijingScraper.bj_download_attachment ["att/案D.pdf"] .failWrite
          "att/案D.pdf").1 = false ∧
    (BeijingScraper.bj_download_attachment ["att/案D.pdf"] .failWrite
        "att/案D.pdf").2 = false ∧
    ShanghaiScraper.sh_attachment_block none
        ⟨none, none, some "http://e/b.doc", some "b.doc"⟩ [] .failWrite = none :=
  ⟨(C7_amended.1 ["att/案D.pdf"] .failWrite "att/案D.pdf" (by decide)).1,
   (C7_amended.1 ["att/案D.pdf"] .failWrite "att/案D.pdf" (by decide)).2,
   C7_amended.2.2.1 ⟨none, none, some "http://e/b.doc", some "b.doc"⟩ [] .failWrite
     "b.doc" (by decide) rfl (by decide)⟩

/-- C8.  Stalled-pagination detection: when the content fingerprint (first
listed title) after a "next" click equals the one before it,
`_turn_to_next_page` reports failure after exactly one click, and the
driver loop of `parse_list_page_playwright` — entered with any remaining
retry budget and needing to advance — returns the failure result `None`
immediately after that single click instead of retrying or looping. -/
theorem C8_stall_detected :
    ∀ (env : PageEnv) (b : Browser) (t : String) (p : Nat),
      b.fingerprint = some t → (env.click b).fingerprint = some t →
      b.hasNext = true →
      (CaseScraper.turn_to_next_page env.click b (some p)
        = (env.click b, none, false, 1)) ∧
      (∀ (pageNo fuel clicks : Nat), p < pageNo →
        CaseScraper.parseListLoop env pageNo (fuel + 1) (some (p, b)) clicks
          = (none, clicks + 1)) := by
  intro env b t p h1 h2 h3
  have hturn : CaseScraper.turn_to_next_page env.click b (some p)
      = (env.click b, none, false, 1) := by
    simp [CaseScraper.turn_to_next_page, h1, h2, h3]
  refine ⟨hturn, ?_⟩
  intro pageNo fuel clicks hlt
  simp [CaseScraper.parseListLoop, hlt, hturn]

/-- The pagination environment of the witness: the "next" click leaves the
page unchanged (a verified stall). -/
def c8Env : PageEnv := ⟨true, ⟨some "案一", true⟩, fun b => b, fun _ => []⟩

/-- Witness for C8 at a concrete stalled environment: requesting page 2 with
a full retry budget ends with failure after exactly one click. -/
theorem C8_stall_detected_witness :
    CaseScraper.parseListLoop c8Env 2 3 (some (1, c8Env.initial)) 0 = (none, 1) ∧
    CaseScraper.turn_to_next_page c8Env.click c8Env.initial (some 1)
      = (c8Env.initial, none, false, 1) :=
  ⟨(C8_stall_detected c8Env c8Env.initial "案一" 1 rfl rfl rfl).2 2 2 0 (by decide),
   (C8_stall_detected c8Env c8Env.initial "案一" 1 rfl rfl rfl).1⟩

/-- C9.  Page Type Resolver totality and ordering: `identify_page_type` is a
pure total function equal, on every URL, to first-match resolution over the
ordered domain/identifier list; every resolved identifier is one of the
fixed six; `get_region` returns the mapped label for every key of
`REGION_MAP` and the designated `'未知'` label for every other input. -/
theorem C9_resolver_total_ordered :
    (∀ url : String,
      PageTypeIdentifier.identify_page_type url = listResolve pageDomains url) ∧
    (∀ (url t : String), PageTypeIdentifier.identify_page_type url = some t →
      t ∈ pageDomains.map (fun p => p.2)) ∧
    (∀ (pt r : String), (pt, r) ∈ PageTypeIdentifier.REGION_MAP →
      PageTypeIdentifier.get_region pt = r) ∧
    (∀ pt : String, pt ∉ PageTypeIdentifier.REGION_MAP.map (fun p => p.1) →
      PageTypeIdentifier.get_region pt = "未知") := by
  have hEq : ∀ url : String,
      PageTypeIdentifier.identify_page_type url = listResolve pageDomains url := by
    intro url
    by_cases h1 : strHas url "samr.gov.cn" <;>
    by_cases h2 : strHas url "scjgj.beijing.gov.cn" <;>
    by_cases h3 : strHas url "scjgj.cq.gov.cn" <;>
    by_cases h4 : strHas url "scjgj.sh.gov.cn" <;>
    by_cases h5 : strHas url "amr.gd.gov.cn" <;>
    by_cases h6 : strHas url "snamr.shaanxi.gov.cn" <;>
    simp [PageTypeIdentifier.identify_page_type, listResolve, pageDomains,
      List.find?, h1, h2, h3, h4, h5, h6]
  refine ⟨hEq, ?_, ?_, ?_⟩
  · intro url t h
    rw [hEq] at h
    obtain ⟨pr, hfind, rfl⟩ := Option.map_eq_some'.mp h
    exact List.mem_map_of_mem _ (List.mem_of_find?_eq_some hfind)
  · intro pt r h
    simp [PageTypeIdentifier.REGION_MAP] at h
    rcases h with ⟨rfl, rfl⟩ | ⟨rfl, rfl⟩ | ⟨rfl, rfl⟩ | ⟨rfl, rfl⟩ |
      ⟨rfl, rfl⟩ | ⟨rfl, rfl⟩ <;> decide
  · intro pt h
    simp [PageTypeIdentifier.REGION_MAP] at h
    obtain ⟨n1, n2, n3, n4, n5, n6⟩ := h
    simp [PageTypeIdentifier.get_region, PageTypeIdentifier.REGION_MAP,
      List.lookup, beq_eq_false_iff_ne.mpr n1, beq_eq_false_iff_ne.mpr n2,
      beq_eq_false_iff_ne.mpr n3, beq_eq_false_iff_ne.mpr n4,
      beq_eq_false_iff_ne.mpr n5, beq_eq_false_iff_ne.mpr n6]

/-- Witness for C9 at concrete inputs: a SAMR URL resolves by first match, a
known page type gets its mapped region, an unknown one gets `'未知'`. -/
theorem C9_resolver_total_ordered_witness :
    PageTypeIdentifier.identify_page_type "https://www.samr.gov.cn/a.html"
      = listResolve pageDomains "https://www.samr.gov.cn/a.html" ∧
    PageTypeIdentifier.get_region "beijing" = "北京" ∧
    PageTypeIdentifier.get_region "hubei" = "未知" :=
  ⟨C9_resolver_total_ordered.1 "https://www.samr.gov.cn/a.html",
   C9_resolver_total_ordered.2.2.1 "beijing" "北京" (by decide),
   C9_resolver_total_ordered.2.2.2 "hubei" (by decide)⟩

/-- C10, counterexample.  The two resolvers are not extensionally equal:
`identify_page_type` matches the Shaanxi site by `'snamr.shaanxi.gov.cn'`
while `get_page_type` looks for `'scjgj.shaanxi.gov.cn'`, so a real Shaanxi
URL resolves to `'shaanxi'` in one and to unresolved in the other; and the
region maps disagree on `'samr'` (`'总局'` vs `'国家市场监督管理总局'`). -/
theorem C10_counterexample :
    PageTypeIdentifier.identify_page_type "https://snamr.shaanxi.gov.cn/info/1.html"
      = some "shaanxi" ∧
    CaseScraper.get_page_type "https://snamr.shaanxi.gov.cn/info/1.html" = none ∧
    PageTypeIdentifier.get_region "samr" = "总局" ∧
    CaseScraper.get_region_name "samr" = "国家市场监督管理总局" ∧
    ¬ ((∀ url : String,
          PageTypeIdentifier.identify_page_type url = CaseScraper.get_page_type url) ∧
       (∀ pt : String,
          PageTypeIdentifier.get_region pt = CaseScraper.get_region_name pt)) := by
  refine ⟨by decide, by decide, by decide, by decide, ?_⟩
  intro h
  exact absurd (h.1 "https://snamr.shaanxi.gov.cn/info/1.html") (by decide)

/-- The five domain substrings both resolvers share. -/
def commonDoms : List String :=
  ["samr.gov.cn", "scjgj.beijing.gov.cn", "scjgj.cq.gov.cn",
   "scjgj.sh.gov.cn", "amr.gd.gov.cn"]

/-- C10, amended.  The resolvers agree on every URL that contains neither
Shaanxi substring and at most one of the five shared domain substrings; and
the region lookups agree on every page type except `'samr'`. -/
theorem C10_resolver_agreement :
    (∀ url : String,
      strHas url "snamr.shaanxi.gov.cn" = false →
      strHas url "scjgj.shaanxi.gov.cn" = false →
      (∀ d1 ∈ commonDoms, ∀ d2 ∈ commonDoms,
        strHas url d1 = true → strHas url d2 = true → d1 = d2) →
      PageTypeIdentifier.identify_page_type url = CaseScraper.get_page_type url) ∧
    (∀ pt : String, pt ≠ "samr" →
      PageTypeIdentifier.get_region pt = CaseScraper.get_region_name pt) := by
  constructor
  · intro url hsn hsx hx
    have excl : ∀ d1 d2 : String, d1 ∈ commonDoms → d2 ∈ commonDoms → d1 ≠ d2 →
        strHas url d1 = true → strHas url d2 = false := by
      intro d1 d2 m1 m2 hne ht
      cases hb : strHas url d2
      · rfl
      · exact absurd (hx d1 m1 d2 m2 ht hb) hne
    cases h1 : strHas url "samr.gov.cn" with
    | true =>
      have n2 := excl _ "scjgj.beijing.gov.cn" (by decide) (by decide) (by decide) h1
      have n3 := excl _ "scjgj.cq.gov.cn" (by decide) (by decide) (by decide) h1
      have n4 := excl _ "scjgj.sh.gov.cn" (by decide) (by decide) (by decide) h1
      have n5 := excl _ "amr.gd.gov.cn" (by decide) (by decide) (by decide) h1
      simp [PageTypeIdentifier.identify_page_type, CaseScraper.get_page_type,
        CaseScraper.domain_map, List.find?, h1, n2, n3, n4, n5, hsn, hsx]
    | false =>
      cases h2 : strHas url "scjgj.beijing.gov.cn" with
      | true =>
        have n3 := excl _ "scjgj.cq.gov.cn" (by decide) (by decide) (by decide) h2
        have n4 := excl _ "scjgj.sh.gov.cn" (by decide) (by decide) (by decide) h2
        have n5 := excl _ "amr.gd.gov.cn" (by decide) (by decide) (by decide) h2
        simp [PageTypeIdentifier.identify_page_type, CaseScraper.get_page_type,
          CaseScraper.domain_map, List.find?, h1, h2, n3, n4, n5, hsn, hsx]
      | false =>
        cases h3 : strHas url "scjgj.cq.gov.cn" with
        | true =>
          have n4 := excl _ "scjgj.sh.gov.cn" (by decide) (by decide) (by decide) h3
          have n5 := excl _ "amr.gd.gov.cn" (by decide) (by decide) (by decide) h3
          simp [PageTypeIdentifier.identify_page_type, CaseScraper.get_page_type,
            CaseScraper.domain_map, List.find?, h1, h2, h3, n4, n5, hsn, hsx]
        | false =>
          cases h4 : strHas url "scjgj.sh.gov.cn" with
          | true =>
            have n5 := excl _ "amr.gd.gov.cn" (by decide) (by decide) (by decide) h4
            simp [PageTypeIdentifier.identify_page_type, CaseScraper.get_page_type,
              CaseScraper.domain_map, List.find?, h1, h2, h3, h4, n5, hsn, hsx]
          | false =>
            cases h5 : strHas url "amr.gd.gov.cn" <;>
              simp [PageTypeIdentifier.identify_page_type, CaseScraper.get_page_type,
                CaseScraper.domain_map, List.find?, h1, h2, h3, h4, h5, hsn, hsx]
  · intro pt h
    by_cases b1 : pt = "beijing"
    · subst b1; decide
    by_cases b2 : pt = "shanghai"
    · subst b2; decide
    by_cases b3 : pt = "chongqing"
    · subst b3; decide
    by_cases b4 : pt = "guangdong"
    · subst b4; decide
    by_cases b5 : pt = "shaanxi"
    · subst b5; decide
    have e0 : (pt == "samr") = false := beq_eq_false_iff_ne.mpr h
    have e1 : (pt == "beijing") = false := beq_eq_false_iff_ne.mpr b1
    have e2 : (pt == "shanghai") = false := beq_eq_false_iff_ne.mpr b2
    have e3 : (pt == "chongqing") = false := beq_eq_false_iff_ne.mpr b3
    have e4 : (pt == "guangdong") = false := beq_eq_false_iff_ne.mpr b4
    have e5 : (pt == "shaanxi") = false := beq_eq_false_iff_ne.mpr b5
    simp [PageTypeIdentifier.get_region, PageTypeIdentifier.REGION_MAP,
      CaseScraper.get_region_name, CaseScraper.region_map, List.lookup,
      e0, e1, e2, e3, e4, e5]

/-- Witness for C10's amended statement: a Beijing URL with a unique domain
match resolves identically in both resolvers, and the region lookups agree
on `'beijing'`. -/
theorem C10_resolver_agreement_witness :
    PageTypeIdentifier.identify_page_type "https://scjgj.beijing.gov.cn/z.html"
      = CaseScraper.get_page_type "https://scjgj.beijing.gov.cn/z.html" ∧
    PageTypeIdentifier.get_region "beijing" = CaseScraper.get_region_name "beijing" :=
  ⟨C10_resolver_agreement.1 "https://scjgj.beijing.gov.cn/z.html"
     (by decide) (by decide) (by decide),
   C10_resolver_agreement.2 "beijing" (by decide)⟩

/-- The seed of a left max-fold bounds the result. -/
theorem foldlMax_init_le : ∀ (l : List Nat) (a : Nat), a ≤ l.foldl Nat.max a
  | [], _ => Nat.le_refl _
  | b :: t, a =>
    Nat.le_trans (Nat.le_max_left a b) (foldlMax_init_le t (Nat.max a b))

/-- A left max-fold lands on its seed or on a list element. -/
theorem foldlMax_mem : ∀ (l : List Nat) (a : Nat),
    l.foldl Nat.max a = a ∨ l.foldl Nat.max a ∈ l
  | [], _ => Or.inl rfl
  | b :: t, a => by
    show t.foldl Nat.max (Nat.max a b) = a ∨ _ ∈ b :: t
    rcases foldlMax_mem t (Nat.max a b) with h | h
    · have hchoice : Nat.max a b = a ∨ Nat.max a b = b := max_choice a b
      rcases hchoice with hm | hm
      · exact Or.inl (by rw [h, hm])
      · refine Or.inr ?_
        rw [List.foldl_cons, h, hm]
        exact List.mem_cons_self b t
    · refine Or.inr ?_
      rw [List.foldl_cons]
      exact List.mem_cons_of_mem b h

/-- A zero-seeded max-fold of a nonempty list is a member of the list. -/
theorem foldlMax_zero_mem : ∀ (l : List Nat), l ≠ [] → l.foldl Nat.max 0 ∈ l
  | [], h => absurd rfl h
  | b :: t, _ => by
    have hz : (b :: t).foldl Nat.max 0 = t.foldl Nat.max b := by
      rw [List.foldl_cons]
      have hzb : Nat.max 0 b = b := Nat.max_eq_right (Nat.zero_le b)
      rw [hzb]
    rw [hz]
    rcases foldlMax_mem t b with h | h
    · rw [h]; exact List.mem_cons_self b t
    · exact List.mem_cons_of_mem b h

/-- When a group key occurs in the table, some row of that group carries the
group's maximal rowid. -/
theorem groupMax_attained (db : List DbRow) (k : Option String)
    (hk : k ∈ db.map (fun r => r.source_url)) :
    ∃ r ∈ db, r.source_url = k ∧ r.rowid = DeduplicateDb.groupMax db k := by
  obtain ⟨r0, hr0, hu⟩ := List.mem_map.mp hk
  have hmem0 : r0 ∈ db.filter (fun r => r.source_url = k) :=
    List.mem_filter.mpr ⟨hr0, by simp [hu]⟩
  have hne : (db.filter (fun r => r.source_url = k)).map (fun r => r.rowid) ≠ [] := by
    intro hnil
    rw [List.map_eq_nil_iff] at hnil
    rw [hnil] at hmem0
    exact absurd hmem0 (List.not_mem_nil r0)
  have hm := foldlMax_zero_mem _ hne
  obtain ⟨r, hrf, hrid⟩ := List.mem_map.mp hm
  have hf := List.mem_filter.mp hrf
  exact ⟨r, hf.1, by simpa using hf.2, hrid⟩

/-- Under pairwise-distinct rowids, a predicate that pins the rowid to one
value is satisfied by exactly one row, provided it is satisfied at all. -/
theorem filter_pinned_length_one :
    ∀ (l : List DbRow) (p : DbRow → Bool) (M : Nat),
      (l.map (fun r => r.rowid)).Nodup →
      (∀ r ∈ l, p r = true → r.rowid = M) →
      (∃ r ∈ l, p r = true) → (l.filter p).length = 1
  | [], _, _, _, _, hex => by simp at hex
  | a :: t, p, M, hnd, himp, hex => by
    rw [List.map_cons, List.nodup_cons] at hnd
    cases hpa : p a with
    | true =>
      have hnil : t.filter p = [] := by
        refine List.filter_eq_nil_iff.mpr ?_
        intro r hr hpr
        have : r.rowid = a.rowid := by
          rw [himp r (List.mem_cons_of_mem a hr) hpr,
            himp a (List.mem_cons_self a t) hpa]
        exact hnd.1 (this ▸ List.mem_map_of_mem (fun r => r.rowid) hr)
      simp [List.filter_cons, hpa, hnil]
    | false =>
      obtain ⟨r, hr, hpr⟩ := hex
      rcases List.mem_cons.mp hr with rfl | hrt
      · rw [hpa] at hpr; exact absurd hpr (by simp)
      · have := filter_pinned_length_one t p M hnd.2
          (fun q hq => himp q (List.mem_cons_of_mem a hq)) ⟨r, hrt, hpr⟩
        simpa [List.filter_cons, hpa] using this

/-- C5, counterexample.  Two rows sharing the identical `source_url` value
`''` are invisible to the duplicate-detection query (its `WHERE` clause
excludes `''`), so the pass returns early and deletes nothing — the claim
that N ≥ 2 rows sharing one identical `source_url` value are always
collapsed to 1 fails as stated. -/
theorem C5_counterexample :
    DeduplicateDb.deduplicate_by_source_url
        [⟨1, some ""⟩, ⟨2, some ""⟩] = [⟨1, some ""⟩, ⟨2, some ""⟩] ∧
    (DbRow.mk 1 (some "")).source_url = (DbRow.mk 2 (some "")).source_url ∧
    (DeduplicateDb.deduplicate_by_source_url
        [⟨1, some ""⟩, ⟨2, some ""⟩]).length = 2 ∧
    ¬ (∀ (db : List DbRow) (v : String),
        2 ≤ (db.filter (fun r => r.source_url = some v)).length →
        ((DeduplicateDb.deduplicate_by_source_url db).filter
          (fun r => r.source_url = some v)).length = 1) := by
  refine ⟨by decide, by decide, by decide, ?_⟩
  intro h
  have := h [⟨1, some ""⟩, ⟨2, some ""⟩] "" (by decide)
  exact absurd this (by decide)

/-- C5, amended.  Provided some non-NULL, non-empty `source_url` is shared
by at least two rows (so the pass does not return early) and rowids are
distinct (as SQLite guarantees), the DELETE keeps exactly the row with the
highest rowid of each `source_url` group — SQLite's `GROUP BY` grouping all
NULLs together and treating `''` as an ordinary value — so N rows sharing a
`source_url` collapse to the highest-rowid one, and a row whose
`source_url` is shared with no other row survives. -/
theorem C5_dedup_maintenance (db : List DbRow)
    (hnd : (db.map (fun r => r.rowid)).Nodup)
    (hdup : DeduplicateDb.hasDupUrl db = true) :
    (∀ r ∈ db, (r ∈ DeduplicateDb.deduplicate_by_source_url db ↔
      r.rowid = DeduplicateDb.groupMax db r.source_url)) ∧
    (∀ k ∈ db.map (fun r => r.source_url),
      ((DeduplicateDb.deduplicate_by_source_url db).filter
        (fun r => r.source_url = k)).length = 1) ∧
    (∀ r ∈ db, (db.filter (fun q => q.source_url = r.source_url)).length = 1 →
      r ∈ DeduplicateDb.deduplicate_by_source_url db) := by
  have hded : DeduplicateDb.deduplicate_by_source_url db =
      db.filter (fun r => (DeduplicateDb.maxRowids db).any (fun m => r.rowid = m)) := by
    simp [DeduplicateDb.deduplicate_by_source_url, hdup]
  have hinj := List.inj_on_of_nodup_map hnd
  have hchar : ∀ r ∈ db,
      ((DeduplicateDb.maxRowids db).any (fun m => r.rowid = m) = true ↔
        r.rowid = DeduplicateDb.groupMax db r.source_url) := by
    intro r hr
    constructor
    · intro h
      simp only [List.any_eq_true, decide_eq_true_eq] at h
      obtain ⟨m, hm, hrm⟩ := h
      obtain ⟨r', hr', hm'⟩ := List.mem_map.mp hm
      have hk : r'.source_url ∈ db.map (fun q => q.source_url) :=
        List.mem_map_of_mem _ hr'
      obtain ⟨q, hq, hqu, hqid⟩ := groupMax_attained db r'.source_url hk
      have hqr : q = r := hinj hq hr (by rw [hqid, hm', ← hrm])
      subst hqr
      rw [hqid, hqu]
    · intro h
      simp only [List.any_eq_true, decide_eq_true_eq]
      exact ⟨DeduplicateDb.groupMax db r.source_url, List.mem_map_of_mem _ hr, h⟩
  have hmemIff : ∀ r ∈ db, (r ∈ DeduplicateDb.deduplicate_by_source_url db ↔
      r.rowid = DeduplicateDb.groupMax db r.source_url) := by
    intro r hr
    rw [hded, List.mem_filter]
    exact ⟨fun hp => (hchar r hr).mp hp.2, fun hp => ⟨hr, (hchar r hr).mpr hp⟩⟩
  refine ⟨hmemIff, ?_, ?_⟩
  · intro k hk
    rw [hded, List.filter_filter]
    refine filter_pinned_length_one db _ (DeduplicateDb.groupMax db k) hnd ?_ ?_
    · intro r hr hpr
      simp only [Bool.and_eq_true, decide_eq_true_eq] at hpr
      have := (hchar r hr).mp hpr.2
      rw [this, hpr.1]
    · obtain ⟨q, hq, hqu, hqid⟩ := groupMax_attained db k hk
      refine ⟨q, hq, ?_⟩
      simp only [Bool.and_eq_true, decide_eq_true_eq]
      exact ⟨hqu, (hchar q hq).mpr (by rw [hqu, hqid])⟩
  · intro r hr hlen
    obtain ⟨a, ha⟩ := List.length_eq_one.mp hlen
    have hmemf : r ∈ db.filter (fun q => q.source_url = r.source_url) :=
      List.mem_filter.mpr ⟨hr, by simp⟩
    rw [ha] at hmemf
    have hra : r = a := by simpa using hmemf
    have hgm : DeduplicateDb.groupMax db r.source_url = r.rowid := by
      unfold DeduplicateDb.groupMax
      rw [ha, ← hra]
      simp [List.foldl]
    exact (hmemIff r hr).mpr hgm.symm

/-- Witness for C5 at a concrete table: rowids 1 and 2 share `'a'`, rowid 3
holds `'b'` alone; after deduplication the `'a'` group has exactly one row,
and the unique `'b'` row survives. -/
theorem C5_dedup_maintenance_witness :
    (([⟨1, some "a"⟩, ⟨2, some "a"⟩, ⟨3, some "b"⟩] : List DbRow).map
        (fun r => r.rowid)).Nodup ∧
    DeduplicateDb.hasDupUrl [⟨1, some "a"⟩, ⟨2, some "a"⟩, ⟨3, some "b"⟩] = true ∧
    ((DeduplicateDb.deduplicate_by_source_url
        [⟨1, some "a"⟩, ⟨2, some "a"⟩, ⟨3, some "b"⟩]).filter
      (fun r => r.source_url = some "a")).length = 1 ∧
    (⟨3, some "b"⟩ : DbRow) ∈ DeduplicateDb.deduplicate_by_source_url
        [⟨1, some "a"⟩, ⟨2, some "a"⟩, ⟨3, some "b"⟩] := by
  refine ⟨by decide, by decide, ?_, ?_⟩
  · exact (C5_dedup_maintenance [⟨1, some "a"⟩, ⟨2, some "a"⟩, ⟨3, some "b"⟩]
      (by decide) (by decide)).2.1 (some "a") (by decide)
  · exact (C5_dedup_maintenance [⟨1, some "a"⟩, ⟨2, some "a"⟩, ⟨3, some "b"⟩]
      (by decide) (by decide)).2.2 ⟨3, some "b"⟩ (by decide) (by decide)
